import Mathlib

/-!
Verification of the filtered-aggregation query composer of the
`streamlit_pokopred` repository (file `src/db.py`), as a shallow embedding
in Lean 4.

Modelling conventions:
  - Python optional filter values (`None`, a string, or a list of strings)
    become the inductive `FilterVal`; Python truthiness (`if league_filter:`)
    is reflected by the emptiness tests in each branch.
  - The predicate fragments that the Python code appends to
    `where_conditions` as strings are embedded as the inductive `Cond`;
    `Cond.toSql` reproduces the exact fragment text the source builds, and
    `Cond.eval` gives the SQL semantics of the fragment over a row of the
    `model_raw_data` table.
  - SQL queries over the database become Lean functions over an explicit
    table (a `List` of row structures); SQL `NULL` becomes `Option`;
    SQL numerics become `ℚ` (exact arithmetic; Python float rounding at
    `round(x, n)` is modelled as half-up decimal rounding on `ℚ`, which agrees
    with it except at exact ties, which no claim touches).
  - Database failure (connection loss, malformed query) is modelled by the
    `QueryOutcome` type consumed by `execute_query`, and by a `dbOk : Bool`
    flag on the cached query functions that short-circuits them into their
    exception-handler fallback path.
-/

namespace PokoPred

/-- Python optional filter argument: `None`, a single string, or a list of
strings (`league_filter`, `season_filter`, `team_filter` in `db.py`). -/
inductive FilterVal where
  | none
  | str (s : String)
  | list (l : List String)
deriving DecidableEq, Repr

/-- Embedding of `','.join(['%s'] * n)` from `db.py` (the placeholder list
inside an SQL `IN (...)`). -/
def placeholders (n : Nat) : String :=
  String.intercalate "," (List.replicate n "%s")

/-- Predicate fragments appended to `where_conditions` by the filter blocks of
`get_raw_data_key_metrics` / `get_raw_data_analytics` /
`get_goals_shots_filtered_data` / `get_league_goals_shots_analytics`
(the four blocks are textually identical in `db.py`). Each constructor
carries the length of the bound list where the fragment is an `IN` clause. -/
inductive Cond where
  | leagueIn (n : Nat)
  | leagueEq
  | seasonIn (n : Nat)
  | seasonEq
  | teamIn (n : Nat)
  | teamEq
  | dateFromGe
  | dateToLe
deriving DecidableEq, Repr

/-- Exact SQL text of each fragment as built by the source. -/
def Cond.toSql : Cond → String
  | .leagueIn n => "\"League\" IN (" ++ placeholders n ++ ")"
  | .leagueEq => "\"League\" = %s"
  | .seasonIn n => "\"Season\" IN (" ++ placeholders n ++ ")"
  | .seasonEq => "\"Season\" = %s"
  | .teamIn n => "(\"HT\" IN (" ++ placeholders n ++ ") OR \"AT\" IN (" ++ placeholders n ++ "))"
  | .teamEq => "(\"HT\" = %s OR \"AT\" = %s)"
  | .dateFromGe => "\"GameDate\" >= %s"
  | .dateToLe => "\"GameDate\" <= %s"

/-- Number of bound parameters each fragment consumes. -/
def Cond.arity : Cond → Nat
  | .leagueIn n => n
  | .leagueEq => 1
  | .seasonIn n => n
  | .seasonEq => 1
  | .teamIn n => 2 * n
  | .teamEq => 2
  | .dateFromGe => 1
  | .dateToLe => 1

/-- League filter block of the four `model_raw_data` query functions:
`if league_filter:` (truthy), list → `IN`, string → `=`. An empty list or
empty string is falsy in Python and contributes nothing. -/
def leagueConds : FilterVal → List Cond × List String
  | .list l => if l.isEmpty then ([], []) else ([.leagueIn l.length], l)
  | .str s => if s.isEmpty then ([], []) else ([.leagueEq], [s])
  | .none => ([], [])

/-- Season filter block (same shape as the league block). -/
def seasonConds : FilterVal → List Cond × List String
  | .list l => if l.isEmpty then ([], []) else ([.seasonIn l.length], l)
  | .str s => if s.isEmpty then ([], []) else ([.seasonEq], [s])
  | .none => ([], [])

/-- Team filter block: disjunctive over home/away; for a list the code runs
`params.extend(team_filter + team_filter)` (teams appended twice, once for
`"HT" IN` and once for `"AT" IN`); for a string it extends with the value
twice. -/
def teamConds : FilterVal → List Cond × List String
  | .list l => if l.isEmpty then ([], []) else ([.teamIn l.length], l ++ l)
  | .str s => if s.isEmpty then ([], []) else ([.teamEq], [s, s])
  | .none => ([], [])

/-- Date lower-bound block: `if date_from:` — `None` and the empty string are
falsy. -/
def dateFromConds : Option String → List Cond × List String
  | Option.some d => if d.isEmpty then ([], []) else ([.dateFromGe], [d])
  | Option.none => ([], [])

/-- Date upper-bound block. -/
def dateToConds : Option String → List Cond × List String
  | Option.some d => if d.isEmpty then ([], []) else ([.dateToLe], [d])
  | Option.none => ([], [])

/-- Filter set handed to the `model_raw_data` query functions (the five
optional arguments `league_filter, season_filter, team_filter, date_from,
date_to`). -/
structure Filters where
  league : FilterVal := FilterVal.none
  season : FilterVal := FilterVal.none
  team : FilterVal := FilterVal.none
  dateFrom : Option String := Option.none
  dateTo : Option String := Option.none
deriving DecidableEq, Repr

/-- Filter Normalizer: the dynamic WHERE-clause construction shared by
`get_raw_data_key_metrics`, `get_raw_data_analytics`,
`get_goals_shots_filtered_data` and `get_league_goals_shots_analytics` in
`db.py` — sequential appends to `where_conditions` and `params` in source
order (league, season, team, date_from, date_to). -/
def buildWhere (f : Filters) : List Cond × List String :=
  ((leagueConds f.league).1 ++ (seasonConds f.season).1 ++ (teamConds f.team).1
      ++ (dateFromConds f.dateFrom).1 ++ (dateToConds f.dateTo).1,
    (leagueConds f.league).2 ++ (seasonConds f.season).2 ++ (teamConds f.team).2
      ++ (dateFromConds f.dateFrom).2 ++ (dateToConds f.dateTo).2)

/-- Embedding of `where_clause = "" if not conds else " AND " + " AND ".join(conds)`. -/
def whereClause (f : Filters) : String :=
  if (buildWhere f).1.isEmpty then ""
  else " AND " ++ String.intercalate " AND " ((buildWhere f).1.map Cond.toSql)

/-- Text of `metrics_query` in `get_raw_data_key_metrics` (whitespace
condensed; the condensed text contains the same placeholders). -/
def metricsQuery (f : Filters) : String :=
  "SELECT COUNT(*) as total_games, COUNT(DISTINCT \"League\") as total_leagues, COUNT(DISTINCT \"Season\") as total_seasons FROM model_raw_data WHERE \"RESULT\" IN (\x27H\x27, \x27D\x27, \x27A\x27) "
    ++ whereClause f

/-- Text of `teams_query` in `get_raw_data_key_metrics`: the WHERE clause text
is interpolated twice (once per side of the `UNION`), which is why the source
submits `tuple(params + params)` with it. -/
def teamsQuery (f : Filters) : String :=
  "SELECT COUNT(*) as total_teams FROM ( SELECT \"HT\" as team FROM model_raw_data WHERE \"RESULT\" IN (\x27H\x27, \x27D\x27, \x27A\x27) "
    ++ whereClause f
    ++ " UNION SELECT \"AT\" as team FROM model_raw_data WHERE \"RESULT\" IN (\x27H\x27, \x27D\x27, \x27A\x27) "
    ++ whereClause f
    ++ " ) as unique_teams"

/-- Parameter tuple submitted with `teams_query`:
`tuple(params + params)` in the source. -/
def teamsParams (f : Filters) : List String :=
  (buildWhere f).2 ++ (buildWhere f).2

/-! ## Semantics of the generated predicates over `model_raw_data` rows -/

/-- Row of the `model_raw_data` table, restricted to the columns the embedded
queries read. `HT`/`AT` are the home/away team columns; `HT_Shots`,
`AT_Shots`, `AvgH`, `AvgD`, `AvgA` are text columns that the SQL casts to
`NUMERIC` when they match the regex `^[0-9]+\.?[0-9]*$`, modelled here as
`Option ℚ` (`none` = non-numeric text or SQL NULL). -/
structure RawRow where
  league : String
  season : String
  homeTeam : String
  awayTeam : String
  gameDate : String
  result : String
  htScore : Int
  atScore : Int
  htShots : Option ℚ
  atShots : Option ℚ
  avgH : Option ℚ
  avgD : Option ℚ
  avgA : Option ℚ
deriving DecidableEq, Repr

/-- SQL semantics of one fragment, given exactly its slice of the bound
parameter list. Date comparison is lexicographic on the `YYYY-MM-DD` strings,
which coincides with date order. -/
def Cond.eval (c : Cond) (ps : List String) (r : RawRow) : Bool :=
  match c, ps with
  | .leagueIn n, ps => (ps.take n).contains r.league
  | .leagueEq, [x] => r.league == x
  | .seasonIn n, ps => (ps.take n).contains r.season
  | .seasonEq, [x] => r.season == x
  | .teamIn n, ps => (ps.take n).contains r.homeTeam || (ps.drop n).contains r.awayTeam
  | .teamEq, [x, y] => r.homeTeam == x || r.awayTeam == y
  | .dateFromGe, [d] => decide (d ≤ r.gameDate)
  | .dateToLe, [d] => decide (r.gameDate ≤ d)
  | _, _ => false

/-- SQL semantics of the conjunction of the fragments, binding the positional
parameter list left to right (each fragment consumes `arity` parameters). -/
def evalConds : List Cond → List String → RawRow → Bool
  | [], _, _ => true
  | c :: cs, ps, r => c.eval (ps.take c.arity) r && evalConds cs (ps.drop c.arity) r

/-- Row qualifies for the `model_raw_data` aggregate queries: the fixed
`"RESULT" IN ('H', 'D', 'A')` guard plus the dynamically appended fragments. -/
def qualifies (f : Filters) (r : RawRow) : Bool :=
  (r.result == "H" || r.result == "D" || r.result == "A")
    && evalConds (buildWhere f).1 (buildWhere f).2 r

/-! Spec-side per-category semantics (following §4.1 of the specification:
absence means no restriction, team category is disjunctive over home/away),
used to state the refinement of the generated WHERE clause. -/

/-- Specified meaning of the league filter. -/
def specLeagueOk (v : FilterVal) (r : RawRow) : Bool :=
  match v with
  | .list l => if l.isEmpty then true else l.contains r.league
  | .str s => if s.isEmpty then true else r.league == s
  | .none => true

/-- Specified meaning of the season filter. -/
def specSeasonOk (v : FilterVal) (r : RawRow) : Bool :=
  match v with
  | .list l => if l.isEmpty then true else l.contains r.season
  | .str s => if s.isEmpty then true else r.season == s
  | .none => true

/-- Specified meaning of the team filter: disjunctive over home and away. -/
def specTeamOk (v : FilterVal) (r : RawRow) : Bool :=
  match v with
  | .list l => if l.isEmpty then true else l.contains r.homeTeam || l.contains r.awayTeam
  | .str s => if s.isEmpty then true else r.homeTeam == s || r.awayTeam == s
  | .none => true

/-- Specified meaning of the date lower bound. -/
def specDateFromOk (v : Option String) (r : RawRow) : Bool :=
  match v with
  | Option.some d => if d.isEmpty then true else decide (d ≤ r.gameDate)
  | Option.none => true

/-- Specified meaning of the date upper bound. -/
def specDateToOk (v : Option String) (r : RawRow) : Bool :=
  match v with
  | Option.some d => if d.isEmpty then true else decide (r.gameDate ≤ d)
  | Option.none => true

/-- Specified meaning of the whole filter set: conjunctive across the five
categories. -/
def specMatches (f : Filters) (r : RawRow) : Bool :=
  specLeagueOk f.league r && specSeasonOk f.season r && specTeamOk f.team r
    && specDateFromOk f.dateFrom r && specDateToOk f.dateTo r

/-! ## Aggregation functions over `model_raw_data` -/

/-- Decimal rounding to `d` places, modelling Python `round(x, d)` and SQL
`ROUND(x, d)` on exact rationals (half-up at ties; no claim depends on tie
behaviour). -/
def roundTo (d : Nat) (q : ℚ) : ℚ :=
  ((⌊q * 10 ^ d + 1 / 2⌋ : ℤ) : ℚ) / 10 ^ d

/-- SQL `AVG` over the listed values: `NULL` (here `none`) on an empty list. -/
def avgOpt (l : List ℚ) : Option ℚ :=
  if l.isEmpty then Option.none else Option.some (l.sum / l.length)

/-- SQL `AVG` over a nullable expression: `NULL` inputs are skipped, and the
result is `NULL` when no non-`NULL` input exists. -/
def avgOfOpts (l : List (Option ℚ)) : Option ℚ :=
  avgOpt (l.filterMap id)

/-- Single result row of `analytics_query` in `get_raw_data_analytics`
(an aggregate query, so it always yields exactly one row on success). -/
structure AnalyticsRow where
  home_wins : Nat
  away_wins : Nat
  draws : Nat
  total_games : Nat
  avg_goals : Option ℚ
  avg_shots : Option ℚ
  avg_winning_home_odds : Option ℚ
  avg_winning_draw_odds : Option ℚ
  avg_winning_away_odds : Option ℚ
  avg_overall_home_odds : Option ℚ
  avg_overall_draw_odds : Option ℚ
  avg_overall_away_odds : Option ℚ

/-- Semantics of `analytics_query`: aggregates over the rows that satisfy
`"RESULT" IN ('H','D','A')` plus the generated filter fragments. Non-numeric
shots text contributes `0` (the SQL `CASE ... ELSE 0`); non-numeric odds text
contributes `NULL` (the SQL `CASE ... ELSE NULL`, skipped by `AVG`). -/
def analyticsAggregate (tbl : List RawRow) (f : Filters) : AnalyticsRow :=
  let rows := tbl.filter (qualifies f)
  { home_wins := (rows.filter (fun r => r.result == "H")).length
    away_wins := (rows.filter (fun r => r.result == "A")).length
    draws := (rows.filter (fun r => r.result == "D")).length
    total_games := rows.length
    avg_goals := avgOpt (rows.map (fun r => ((r.htScore + r.atScore : Int) : ℚ)))
    avg_shots := avgOpt (rows.map (fun r => r.htShots.getD 0 + r.atShots.getD 0))
    avg_winning_home_odds :=
      avgOfOpts (rows.map (fun r => if r.result == "H" then r.avgH else Option.none))
    avg_winning_draw_odds :=
      avgOfOpts (rows.map (fun r => if r.result == "D" then r.avgD else Option.none))
    avg_winning_away_odds :=
      avgOfOpts (rows.map (fun r => if r.result == "A" then r.avgA else Option.none))
    avg_overall_home_odds := avgOfOpts (rows.map (fun r => r.avgH))
    avg_overall_draw_odds := avgOfOpts (rows.map (fun r => r.avgD))
    avg_overall_away_odds := avgOfOpts (rows.map (fun r => r.avgA)) }

/-- Dictionary returned by `get_raw_data_analytics`. -/
structure Analytics where
  home_wins : Nat
  away_wins : Nat
  draws : Nat
  total_games : Nat
  home_percentage : ℚ
  away_percentage : ℚ
  draw_percentage : ℚ
  avg_goals : ℚ
  avg_shots : ℚ
  avg_winning_home_odds : ℚ
  avg_winning_draw_odds : ℚ
  avg_winning_away_odds : ℚ
  avg_overall_home_odds : ℚ
  avg_overall_draw_odds : ℚ
  avg_overall_away_odds : ℚ
deriving DecidableEq, Repr

/-- Fallback dictionary returned by `get_raw_data_analytics` when the query
fails (the `except` path and the final `return` of the function). -/
def analyticsFallback : Analytics :=
  { home_wins := 0, away_wins := 0, draws := 0, total_games := 0
    home_percentage := 0, away_percentage := 0, draw_percentage := 0
    avg_goals := 0, avg_shots := 0
    avg_winning_home_odds := 0, avg_winning_draw_odds := 0, avg_winning_away_odds := 0
    avg_overall_home_odds := 0, avg_overall_draw_odds := 0, avg_overall_away_odds := 0 }

/-- Embedding of `get_raw_data_analytics` (`db.py` lines 646–771). `dbOk`
distinguishes a successful query from the exception path, in which case the
source returns the all-zero fallback dictionary. The Python dict literal
assigns the three `avg_overall_*` keys twice; the later (`pd.notnull`)
assignment wins and is the one modelled — for SQL `NULL` both coincide. -/
def get_raw_data_analytics (dbOk : Bool) (tbl : List RawRow) (f : Filters) : Analytics :=
  if dbOk then
    let row := analyticsAggregate tbl f
    let total_games := row.total_games
    { home_wins := row.home_wins
      away_wins := row.away_wins
      draws := row.draws
      total_games := total_games
      home_percentage :=
        roundTo 1 (if total_games > 0 then (row.home_wins : ℚ) / total_games * 100 else 0)
      away_percentage :=
        roundTo 1 (if total_games > 0 then (row.away_wins : ℚ) / total_games * 100 else 0)
      draw_percentage :=
        roundTo 1 (if total_games > 0 then (row.draws : ℚ) / total_games * 100 else 0)
      avg_goals := roundTo 2 (row.avg_goals.getD 0)
      avg_shots := roundTo 2 (row.avg_shots.getD 0)
      avg_winning_home_odds := roundTo 2 (row.avg_winning_home_odds.getD 0)
      avg_winning_draw_odds := roundTo 2 (row.avg_winning_draw_odds.getD 0)
      avg_winning_away_odds := roundTo 2 (row.avg_winning_away_odds.getD 0)
      avg_overall_home_odds := roundTo 2 (row.avg_overall_home_odds.getD 0)
      avg_overall_draw_odds := roundTo 2 (row.avg_overall_draw_odds.getD 0)
      avg_overall_away_odds := roundTo 2 (row.avg_overall_away_odds.getD 0) }
  else analyticsFallback

/-- Dictionary returned by `get_goals_shots_filtered_data`. -/
structure GoalsShots where
  avg_goals : ℚ
  avg_shots : ℚ
  total_games : Nat
deriving DecidableEq, Repr

/-- Embedding of `get_goals_shots_filtered_data` (`db.py` lines 799–892): the
same filter construction and the goals/shots averages, with the all-zero
fallback on query failure. -/
def get_goals_shots_filtered_data (dbOk : Bool) (tbl : List RawRow) (f : Filters) :
    GoalsShots :=
  if dbOk then
    let rows := tbl.filter (qualifies f)
    { avg_goals :=
        roundTo 2 ((avgOpt (rows.map (fun r => ((r.htScore + r.atScore : Int) : ℚ)))).getD 0)
      avg_shots :=
        roundTo 2 ((avgOpt (rows.map (fun r => r.htShots.getD 0 + r.atShots.getD 0))).getD 0)
      total_games := rows.length }
  else { avg_goals := 0, avg_shots := 0, total_games := 0 }

/-! ## `get_league_statistics` over the `raw_data` table -/

/-- Row of the `raw_data` table as read by `get_league_statistics`:
season plus nullable full-time home/away goal counts. -/
structure RawDataRow where
  season : String
  fthg : Option Int
  ftag : Option Int
deriving DecidableEq, Repr

/-- WHERE guard of `get_league_statistics`: both goal columns non-NULL. -/
def validGoals (r : RawDataRow) : Bool :=
  r.fthg.isSome && r.ftag.isSome

/-- One output row of `get_league_statistics` (the `league` column is the
constant `'Various Leagues'` and is omitted). -/
structure LeagueStatRow where
  season : String
  total_matches : Nat
  home_wins : Nat
  away_wins : Nat
  draws : Nat
  home_win_percentage : ℚ
  away_win_percentage : ℚ
  draw_percentage : ℚ
  avg_total_goals : Option ℚ
  max_total_goals : Option Int
deriving DecidableEq, Repr

/-- Aggregates for one `GROUP BY "Season"` group of `get_league_statistics`.
Percentages are the SQL `ROUND(count * 100.0 / COUNT(*), 2)`. -/
def leagueStatOfGroup (s : String) (g : List RawDataRow) : LeagueStatRow :=
  { season := s
    total_matches := g.length
    home_wins := (g.filter (fun r => r.fthg.getD 0 > r.ftag.getD 0)).length
    away_wins := (g.filter (fun r => r.fthg.getD 0 < r.ftag.getD 0)).length
    draws := (g.filter (fun r => r.fthg.getD 0 == r.ftag.getD 0)).length
    home_win_percentage :=
      roundTo 2 (((g.filter (fun r => r.fthg.getD 0 > r.ftag.getD 0)).length : ℚ)
        * 100 / g.length)
    away_win_percentage :=
      roundTo 2 (((g.filter (fun r => r.fthg.getD 0 < r.ftag.getD 0)).length : ℚ)
        * 100 / g.length)
    draw_percentage :=
      roundTo 2 (((g.filter (fun r => r.fthg.getD 0 == r.ftag.getD 0)).length : ℚ)
        * 100 / g.length)
    avg_total_goals :=
      avgOpt (g.map (fun r => ((r.fthg.getD 0 + r.ftag.getD 0 : Int) : ℚ)))
    max_total_goals :=
      (g.map (fun r => r.fthg.getD 0 + r.ftag.getD 0)).max? }

/-- Embedding of `get_league_statistics` (`db.py` lines 317–345): group the
non-NULL rows of `raw_data` by season, one aggregate row per season, ordered
by season descending. -/
def get_league_statistics (tbl : List RawDataRow) : List LeagueStatRow :=
  let valid := tbl.filter validGoals
  let seasons := ((valid.map (fun r => r.season)).dedup).mergeSort (fun a b => decide (b ≤ a))
  seasons.map (fun s => leagueStatOfGroup s (valid.filter (fun r => r.season == s)))

/-! ## `DatabaseManager.execute_query` -/

/-- Possible outcomes of submitting a query to the database, as distinguished
by `execute_query`: no connection (`get_connection` returned `None`), an
exception raised during execution (connection loss, malformed query
referencing a nonexistent column/table, type mismatch — all reach the same
`except` handler), or a successful fetch of column names and rows. -/
inductive QueryOutcome where
  | connFailure
  | execFailure (msg : String)
  | success (cols : List String) (rows : List (List String))
deriving DecidableEq, Repr

/-- In-memory table: column names plus row-ordered data (the shape of the
`pandas.DataFrame` that `execute_query` materializes). -/
structure Table where
  cols : List String
  rows : List (List String)
deriving DecidableEq, Repr

/-- Empty table (`pd.DataFrame()`). -/
def emptyTable : Table := { cols := [], rows := [] }

/-- Embedding of `DatabaseManager.execute_query` (`db.py` lines 87–134): every
failure branch returns the empty table; on success the result rows are keyed
by the cursor's column names (and an empty result set yields `pd.DataFrame()`
with no columns). The function is total: no outcome propagates an
exception. -/
def execute_query (o : QueryOutcome) : Table :=
  match o with
  | .connFailure => emptyTable
  | .execFailure _ => emptyTable
  | .success cols rows => if rows.isEmpty then emptyTable else { cols := cols, rows := rows }

/-! ## `get_enhanced_predictions` over the `enhanced_predictions` table -/

/-- Row of the `enhanced_predictions` table, restricted to the columns the
dynamic WHERE clause touches plus the session identifier. Sessions are
non-NULL monotone integers per the data model. -/
structure PredRow where
  model : String
  gameDate : String
  gameTime : String
  league : String
  homeTeam : String
  awayTeam : String
  sessionId : Nat
deriving DecidableEq, Repr

/-- Result of `SELECT MAX(session_id) FROM enhanced_predictions`: `NULL`
(`none`) exactly when the table is empty. -/
def maxSessionId (tbl : List PredRow) : Option Nat :=
  match tbl with
  | [] => Option.none
  | r :: rs => Option.some (rs.foldl (fun m x => max m x.sessionId) r.sessionId)

/-- Filter arguments of `get_enhanced_predictions` other than
`last_session_only`. -/
structure EpFilters where
  team : Option String := Option.none
  league : Option String := Option.none
  dateFrom : Option String := Option.none
  dateTo : Option String := Option.none
  model : Option String := Option.none
deriving DecidableEq, Repr

/-- Bound parameter of the `get_enhanced_predictions` query: a filter string
or the integer session identifier. -/
inductive EpParam where
  | str (s : String)
  | nat (n : Nat)
deriving DecidableEq, Repr

/-- Predicate fragments appended to `where_conditions` by
`get_enhanced_predictions`. -/
inductive EpCond where
  | sessionEq
  | teamOr
  | leagueEq
  | dateFromGe
  | dateToLe
  | modelEq
deriving DecidableEq, Repr

/-- Exact SQL text of each fragment of `get_enhanced_predictions`. -/
def EpCond.toSql : EpCond → String
  | .sessionEq => "ep.session_id = %s"
  | .teamOr => "(ep.home_team = %s OR ep.away_team = %s)"
  | .leagueEq => "ep.league = %s"
  | .dateFromGe => "ep.game_date >= %s"
  | .dateToLe => "ep.game_date <= %s"
  | .modelEq => "ep.model = %s"

/-- Parameters each fragment of `get_enhanced_predictions` consumes. -/
def EpCond.arity : EpCond → Nat
  | .teamOr => 2
  | _ => 1

/-- One optional-string filter block of `get_enhanced_predictions`
(`if team_filter:` etc.): a truthy string contributes one fragment with the
given parameters. -/
def epOptCond (c : EpCond) (mk : String → List EpParam) (v : Option String) :
    List EpCond × List EpParam :=
  match v with
  | Option.some s => if s.isEmpty then ([], []) else ([c], mk s)
  | Option.none => ([], [])

/-- Dynamic WHERE construction of `get_enhanced_predictions` (`db.py` lines
172–258). When `last_session_only` is set and the `MAX(session_id)` probe
finds a session, the caller's `date_from`/`date_to` are overwritten with
`None` (lines 183–184) and the `ep.session_id = %s` fragment is appended
first; the remaining blocks follow in source order (team, league, date_from,
date_to, model). -/
def epBuild (tbl : List PredRow) (f : EpFilters) (lastOnly : Bool) :
    List EpCond × List EpParam :=
  let latest : Option Nat := if lastOnly then maxSessionId tbl else Option.none
  let dateFrom := if lastOnly && latest.isSome then Option.none else f.dateFrom
  let dateTo := if lastOnly && latest.isSome then Option.none else f.dateTo
  let sess : List EpCond × List EpParam :=
    match latest with
    | Option.some m => ([.sessionEq], [.nat m])
    | Option.none => ([], [])
  let team := epOptCond .teamOr (fun s => [.str s, .str s]) f.team
  let league := epOptCond .leagueEq (fun s => [.str s]) f.league
  let d1 := epOptCond .dateFromGe (fun s => [.str s]) dateFrom
  let d2 := epOptCond .dateToLe (fun s => [.str s]) dateTo
  let model := epOptCond .modelEq (fun s => [.str s]) f.model
  (sess.1 ++ team.1 ++ league.1 ++ d1.1 ++ d2.1 ++ model.1,
    sess.2 ++ team.2 ++ league.2 ++ d1.2 ++ d2.2 ++ model.2)

/-- SQL semantics of one `get_enhanced_predictions` fragment, given exactly
its parameter slice. -/
def EpCond.eval (c : EpCond) (ps : List EpParam) (r : PredRow) : Bool :=
  match c, ps with
  | .sessionEq, [.nat n] => r.sessionId == n
  | .teamOr, [.str a, .str b] => r.homeTeam == a || r.awayTeam == b
  | .leagueEq, [.str s] => r.league == s
  | .dateFromGe, [.str s] => decide (s ≤ r.gameDate)
  | .dateToLe, [.str s] => decide (r.gameDate ≤ s)
  | .modelEq, [.str s] => r.model == s
  | _, _ => false

/-- Conjunction of the `get_enhanced_predictions` fragments over the
positional parameter list. -/
def epEvalConds : List EpCond → List EpParam → PredRow → Bool
  | [], _, _ => true
  | c :: cs, ps, r => c.eval (ps.take c.arity) r && epEvalConds cs (ps.drop c.arity) r

/-- Embedding of `get_enhanced_predictions` at the granularity of
`enhanced_predictions` rows: the `LEFT JOIN`s and the projection do not change
which `ep` rows qualify, and the `ORDER BY` does not change membership, so the
result is modelled as the filtered row list. `dbOk = false` is the path where
`execute_query` fails and an empty frame comes back. -/
def get_enhanced_predictions (dbOk : Bool) (tbl : List PredRow) (f : EpFilters)
    (lastOnly : Bool) : List PredRow :=
  if dbOk then
    tbl.filter (fun r => epEvalConds (epBuild tbl f lastOnly).1 (epBuild tbl f lastOnly).2 r)
  else []

/-- Embedding of `get_last_session_predictions` (`db.py` lines 280–289). -/
def get_last_session_predictions (dbOk : Bool) (tbl : List PredRow) : List PredRow :=
  get_enhanced_predictions dbOk tbl {} true

/-! ## `get_team_statistics` over the `team_statistics` table -/

/-- Row of the `team_statistics` table as read by `get_team_statistics`
(nullable statistics columns). -/
structure TeamStatRow where
  team : String
  season : String
  league_rank : Option Int
  total_points : Option Int
  total_goals_scored : Option Int
  total_goals_conceded : Option Int
  last_5_games : Option String
deriving DecidableEq, Repr

/-- Value of one statistics field in the returned dictionary: an integer, a
string, or the `'N/A'` placeholder. -/
inductive StatVal where
  | int (n : Int)
  | str (s : String)
  | na
deriving DecidableEq, Repr

/-- Statistics entry for one team, holding all five fields. -/
structure TeamStats where
  league_rank : StatVal
  points : StatVal
  goals_for : StatVal
  goals_against : StatVal
  last_5_games : StatVal
deriving DecidableEq, Repr

/-- All-`'N/A'` entry used when a team is absent from the result set or the
query fails. -/
def naStats : TeamStats :=
  { league_rank := .na, points := .na, goals_for := .na, goals_against := .na
    last_5_games := .na }

/-- Conversion of one result row into a statistics entry (`pd.notnull`
guard per field, `'N/A'` for NULL). -/
def rowToStats (r : TeamStatRow) : TeamStats :=
  { league_rank := match r.league_rank with | Option.some n => .int n | Option.none => .na
    points := match r.total_points with | Option.some n => .int n | Option.none => .na
    goals_for := match r.total_goals_scored with | Option.some n => .int n | Option.none => .na
    goals_against :=
      match r.total_goals_conceded with | Option.some n => .int n | Option.none => .na
    last_5_games := match r.last_5_games with | Option.some s => .str s | Option.none => .na }

/-- Python-dict association list: assignment replaces the entry of an
existing key in place or appends a new one at the end. -/
def upsert : List (String × TeamStats) → String → TeamStats → List (String × TeamStats)
  | [], k, v => [(k, v)]
  | p :: ps, k, v => if p.1 == k then (k, v) :: ps else p :: upsert ps k v

/-- Key lookup in the association list. -/
def lookupStats (d : List (String × TeamStats)) (k : String) : Option TeamStats :=
  (d.find? (fun p => p.1 == k)).map (fun p => p.2)

/-- Season actually queried by `get_team_statistics`: the caller's season if
given, else the latest season in the table, else the `"2024-25"` fallback. -/
def resolveSeason (dbOk : Bool) (tbl : List TeamStatRow) (season : Option String) : String :=
  match season with
  | Option.some s => s
  | Option.none =>
    if dbOk then
      match ((tbl.map (fun r => r.season)).mergeSort (fun a b => decide (b ≤ a))).head? with
      | Option.some s => s
      | Option.none => "2024-25"
    else "2024-25"

/-- Body of the `for team in [home_team, away_team]: if team not in
stats_dict: stats_dict[team] = {...'N/A'...}` loop of `get_team_statistics`. -/
def ensureTeam (d : List (String × TeamStats)) (t : String) : List (String × TeamStats) :=
  if (lookupStats d t).isNone then upsert d t naStats else d

/-- Embedding of `get_team_statistics` (`db.py` lines 1036–1126): query the
rows of the two requested teams for the season, build the dictionary row by
row, then insert an all-`'N/A'` entry for any requested team that is missing;
on query failure return the all-`'N/A'` dictionary for both teams. -/
def get_team_statistics (dbOk : Bool) (tbl : List TeamStatRow)
    (homeTeam awayTeam : String) (season : Option String) :
    List (String × TeamStats) :=
  let s := resolveSeason dbOk tbl season
  if dbOk then
    let rows := tbl.filter (fun r => (r.team == homeTeam || r.team == awayTeam)
      && r.season == s)
    let d := rows.foldl (fun d r => upsert d r.team (rowToStats r)) []
    ensureTeam (ensureTeam d homeTeam) awayTeam
  else [(homeTeam, naStats), (awayTeam, naStats)]

/-! ## `get_league_table` query text and parameters -/

/-- One list filter block of `get_league_table` (`db.py` lines 1164–1182):
`if xs:` (None and the empty list are falsy) appends
`" AND col IN (placeholders)"` to the query text and extends the params. -/
def ltFragment (col : String) (v : Option (List String)) : String × List String :=
  match v with
  | Option.some xs =>
    if xs.isEmpty then ("", [])
    else (" AND " ++ col ++ " IN (" ++ placeholders xs.length ++ ")", xs)
  | Option.none => ("", [])

/-- Fixed head of the `get_league_table` query (whitespace condensed; it
contains no `%s` placeholder). -/
def leagueTableBase : String :=
  "SELECT team, league, season, league_rank, total_points, total_games_played, total_goals_scored, total_goals_conceded, (total_goals_scored - total_goals_conceded) AS goal_difference, last_5_games, CASE WHEN total_games_played > 0 THEN ROUND(CAST(total_points AS NUMERIC) / total_games_played, 2) ELSE 0 END AS points_per_game FROM team_statistics WHERE 1=1"

/-- Query text finally submitted by `get_league_table` after the three
`query += ...` filter blocks and the `ORDER BY` suffix. -/
def leagueTableQuery (lf sf tf : Option (List String)) : String :=
  leagueTableBase ++ (ltFragment "league" lf).1 ++ (ltFragment "season" sf).1
    ++ (ltFragment "team" tf).1 ++ " ORDER BY league, season, league_rank"

/-- Parameter list submitted with the `get_league_table` query. -/
def leagueTableParams (lf sf tf : Option (List String)) : List String :=
  (ltFragment "league" lf).2 ++ (ltFragment "season" sf).2 ++ (ltFragment "team" tf).2

/-! ## Counting the `%s` placeholders of a query text -/

/-- Scan for non-overlapping `%s` placeholder tokens, the way the driver
consumes positional placeholders left to right. -/
def countPSAux : List Char → Nat
  | [] => 0
  | [_] => 0
  | c1 :: c2 :: rest =>
    if c1 = '%' ∧ c2 = 's' then countPSAux rest + 1 else countPSAux (c2 :: rest)

/-- Number of `%s` placeholders in a query string. -/
def countPlaceholders (s : String) : Nat :=
  countPSAux s.data

/-- Character sequence of the separator-joined tail of a placeholder list:
`n` copies of `",%s"`. -/
def phTail : Nat → List Char
  | 0 => []
  | n + 1 => ',' :: '%' :: 's' :: phTail n

/-- Separator-joined string list (the loop of `String.intercalate` after the
first element). -/
def sepJoin (s : String) : List String → String
  | [] => ""
  | a :: as => s ++ a ++ sepJoin s as

/-! ## Concrete sample data for instantiating the theorems -/

/-- Sample `model_raw_data` row with the given full-time result. -/
def sampleRaw (res : String) : RawRow :=
  { league := "E0", season := "2324", homeTeam := "Arsenal", awayTeam := "Chelsea",
    gameDate := "2024-01-01", result := res, htScore := 2, atScore := 1,
    htShots := Option.some 10, atShots := Option.some 8,
    avgH := Option.some 2, avgD := Option.some 3, avgA := Option.some 4 }

/-- Sample result set of ten matches: six home wins, two draws, two away
wins. -/
def exampleMatches : List RawRow :=
  List.replicate 6 (sampleRaw "H") ++ List.replicate 2 (sampleRaw "D")
    ++ List.replicate 2 (sampleRaw "A")

/-- Sample `enhanced_predictions` row in the given session. -/
def samplePred (sid : Nat) : PredRow :=
  { model := "rf", gameDate := "2024-01-0" ++ toString sid, gameTime := "15:00",
    league := "E0", homeTeam := "Arsenal", awayTeam := "Chelsea", sessionId := sid }

/-- Sample prediction table spanning three sessions. -/
def examplePreds : List PredRow :=
  [samplePred 1, samplePred 2, samplePred 3]

/-- Sample `team_statistics` row. -/
def sampleTeamStat : TeamStatRow :=
  { team := "Arsenal", season := "2024-25", league_rank := Option.some 1,
    total_points := Option.some 80, total_goals_scored := Option.some 88,
    total_goals_conceded := Option.some 29, last_5_games := Option.some "WWWDW" }

/-! ## Theorems -/

/-- Splitting evaluation of a concatenated fragment list when the left part's
parameters are exactly accounted for. -/
theorem evalConds_append (cs1 : List Cond) (ps1 : List String)
    (cs2 : List Cond) (ps2 : List String) (r : RawRow)
    (h : ps1.length = (cs1.map Cond.arity).sum) :
    evalConds (cs1 ++ cs2) (ps1 ++ ps2) r
      = (evalConds cs1 ps1 r && evalConds cs2 ps2 r) := by
  induction cs1 generalizing ps1 with
  | nil =>
    simp only [List.map_nil, List.sum_nil, List.length_eq_zero] at h
    subst h
    simp [evalConds]
  | cons c cs ih =>
    simp only [List.map_cons, List.sum_cons] at h
    have harity : c.arity ≤ ps1.length := by omega
    simp only [List.cons_append, evalConds, List.append_eq]
    rw [List.take_append_of_le_length harity, List.drop_append_of_le_length harity]
    rw [ih (ps1.drop c.arity) (by simp [h])]
    simp [Bool.and_assoc]

/-- Each category block binds exactly as many parameters as its fragments
consume. -/
theorem leagueConds_length (v : FilterVal) :
    (leagueConds v).2.length = ((leagueConds v).1.map Cond.arity).sum := by
  cases v with
  | none => simp [leagueConds]
  | str s => by_cases h : s.isEmpty <;> simp [leagueConds, h, Cond.arity]
  | list l => by_cases h : l.isEmpty <;> simp [leagueConds, h, Cond.arity]

/-- Season block parameter accounting. -/
theorem seasonConds_length (v : FilterVal) :
    (seasonConds v).2.length = ((seasonConds v).1.map Cond.arity).sum := by
  cases v with
  | none => simp [seasonConds]
  | str s => by_cases h : s.isEmpty <;> simp [seasonConds, h, Cond.arity]
  | list l => by_cases h : l.isEmpty <;> simp [seasonConds, h, Cond.arity]

/-- Team block parameter accounting (the list case binds `2 * n` values). -/
theorem teamConds_length (v : FilterVal) :
    (teamConds v).2.length = ((teamConds v).1.map Cond.arity).sum := by
  cases v with
  | none => simp [teamConds]
  | str s => by_cases h : s.isEmpty <;> simp [teamConds, h, Cond.arity]
  | list l =>
    by_cases h : l.isEmpty
    · simp [teamConds, h]
    · simp only [teamConds, h, Bool.false_eq_true, if_false, List.length_append,
        List.map_cons, List.map_nil, Cond.arity, List.sum_cons, List.sum_nil]
      omega

/-- Date lower-bound block parameter accounting. -/
theorem dateFromConds_length (v : Option String) :
    (dateFromConds v).2.length = ((dateFromConds v).1.map Cond.arity).sum := by
  cases v with
  | none => simp [dateFromConds]
  | some d => by_cases h : d.isEmpty <;> simp [dateFromConds, h, Cond.arity]

/-- Date upper-bound block parameter accounting. -/
theorem dateToConds_length (v : Option String) :
    (dateToConds v).2.length = ((dateToConds v).1.map Cond.arity).sum := by
  cases v with
  | none => simp [dateToConds]
  | some d => by_cases h : d.isEmpty <;> simp [dateToConds, h, Cond.arity]

/-- League block refines its specified semantics. -/
theorem leagueConds_eval (v : FilterVal) (r : RawRow) :
    evalConds (leagueConds v).1 (leagueConds v).2 r = specLeagueOk v r := by
  cases v with
  | none => simp [leagueConds, specLeagueOk, evalConds]
  | str s =>
    by_cases h : s.isEmpty <;>
      simp [leagueConds, specLeagueOk, h, evalConds, Cond.eval, Cond.arity]
  | list l =>
    by_cases h : l.isEmpty <;>
      simp [leagueConds, specLeagueOk, h, evalConds, Cond.eval, Cond.arity, List.take_left]

/-- Season block refines its specified semantics. -/
theorem seasonConds_eval (v : FilterVal) (r : RawRow) :
    evalConds (seasonConds v).1 (seasonConds v).2 r = specSeasonOk v r := by
  cases v with
  | none => simp [seasonConds, specSeasonOk, evalConds]
  | str s =>
    by_cases h : s.isEmpty <;>
      simp [seasonConds, specSeasonOk, h, evalConds, Cond.eval, Cond.arity]
  | list l =>
    by_cases h : l.isEmpty <;>
      simp [seasonConds, specSeasonOk, h, evalConds, Cond.eval, Cond.arity, List.take_left]

/-- Team block refines its specified (disjunctive) semantics. -/
theorem teamConds_eval (v : FilterVal) (r : RawRow) :
    evalConds (teamConds v).1 (teamConds v).2 r = specTeamOk v r := by
  cases v with
  | none => simp [teamConds, specTeamOk, evalConds]
  | str s =>
    by_cases h : s.isEmpty <;>
      simp [teamConds, specTeamOk, h, evalConds, Cond.eval, Cond.arity]
  | list l =>
    by_cases h : l.isEmpty
    · simp [teamConds, specTeamOk, h, evalConds]
    · have e : teamConds (FilterVal.list l) = ([Cond.teamIn l.length], l ++ l) := by
        simp [teamConds, h]
      have hs : specTeamOk (FilterVal.list l) r
          = (l.contains r.homeTeam || l.contains r.awayTeam) := by
        simp [specTeamOk, h]
      rw [e, hs]
      simp only [evalConds, Cond.eval, Cond.arity]
      have htake : List.take (2 * l.length) (l ++ l) = l ++ l :=
        List.take_of_length_le (by simp [List.length_append, Nat.two_mul])
      rw [htake, List.take_left, List.drop_left]
      simp

/-- Date lower-bound block refines its specified semantics. -/
theorem dateFromConds_eval (v : Option String) (r : RawRow) :
    evalConds (dateFromConds v).1 (dateFromConds v).2 r = specDateFromOk v r := by
  cases v with
  | none => simp [dateFromConds, specDateFromOk, evalConds]
  | some d =>
    by_cases h : d.isEmpty <;>
      simp [dateFromConds, specDateFromOk, h, evalConds, Cond.eval, Cond.arity]

/-- Date upper-bound block refines its specified semantics. -/
theorem dateToConds_eval (v : Option String) (r : RawRow) :
    evalConds (dateToConds v).1 (dateToConds v).2 r = specDateToOk v r := by
  cases v with
  | none => simp [dateToConds, specDateToOk, evalConds]
  | some d =>
    by_cases h : d.isEmpty <;>
      simp [dateToConds, specDateToOk, h, evalConds, Cond.eval, Cond.arity]

/-- Refinement of the Filter Normalizer: evaluating the generated fragment
list on its generated positional parameters is the specified conjunctive
semantics of the filter set. -/
theorem evalConds_buildWhere (f : Filters) (r : RawRow) :
    evalConds (buildWhere f).1 (buildWhere f).2 r = specMatches f r := by
  simp only [buildWhere, specMatches, List.append_assoc]
  rw [evalConds_append _ _ _ _ _ (leagueConds_length f.league)]
  rw [evalConds_append _ _ _ _ _ (seasonConds_length f.season)]
  rw [evalConds_append _ _ _ _ _ (teamConds_length f.team)]
  rw [evalConds_append _ _ _ _ _ (dateFromConds_length f.dateFrom)]
  rw [leagueConds_eval, seasonConds_eval, teamConds_eval, dateFromConds_eval,
    dateToConds_eval]
  simp [Bool.and_assoc]

/-- Rounding fixes values that are already integers. -/
theorem roundTo_intCast (d : Nat) (n : ℤ) : roundTo d ((n : ℤ) : ℚ) = n := by
  unfold roundTo
  have hfl : ⌊((n : ℤ) : ℚ) * 10 ^ d + 1 / 2⌋ = n * 10 ^ d := by
    rw [Int.floor_eq_iff]
    constructor
    · push_cast
      nlinarith [pow_pos (show (0:ℚ) < 10 by norm_num) d]
    · push_cast
      nlinarith [pow_pos (show (0:ℚ) < 10 by norm_num) d]
  rw [hfl]
  have h10 : ((10 : ℚ) ^ d) ≠ 0 := by positivity
  push_cast
  field_simp

/-- Rounding zero yields zero. -/
theorem roundTo_zero (d : Nat) : roundTo d 0 = 0 := by
  have h := roundTo_intCast d 0
  simpa using h

/-- Scanning skips a leading character that is not `'%'`. -/
theorem countPSAux_cons_ne (c : Char) (l : List Char) (h : c ≠ '%') :
    countPSAux (c :: l) = countPSAux l := by
  cases l with
  | nil => rfl
  | cons c2 t => simp [countPSAux, h]

/-- Scanning a percent-free prefix contributes nothing. -/
theorem countPSAux_append_of_no_percent (a b : List Char) (h : '%' ∉ a) :
    countPSAux (a ++ b) = countPSAux b := by
  induction a with
  | nil => rfl
  | cons c rest ih =>
    have hc : c ≠ '%' := fun e => h (e ▸ List.mem_cons_self c rest)
    have hrest : '%' ∉ rest := fun m => h (List.mem_cons_of_mem c m)
    rw [List.cons_append, countPSAux_cons_ne c _ hc, ih hrest]

/-- Accumulator characterization of `String.intercalate.go`. -/
theorem intercalate_go_eq (l : List String) :
    ∀ acc s : String, String.intercalate.go acc s l = acc ++ sepJoin s l := by
  induction l with
  | nil => intro acc s; simp [String.intercalate.go, sepJoin]
  | cons a as ih =>
    intro acc s
    show String.intercalate.go (acc ++ s ++ a) s as = _
    rw [ih]
    simp [sepJoin, String.append_assoc]

/-- `String.intercalate` as first element plus separator-joined tail. -/
theorem intercalate_eq_sepJoin (s : String) (a : String) (as : List String) :
    String.intercalate s (a :: as) = a ++ sepJoin s as :=
  intercalate_go_eq as a s

/-- Character content of the joined tail of the placeholder list. -/
theorem sepJoin_replicate_data (n : Nat) :
    (sepJoin "," (List.replicate n "%s")).data = phTail n := by
  induction n with
  | zero => rfl
  | succ m ih =>
    show (("," ++ "%s") ++ sepJoin "," (List.replicate m "%s")).data = _
    rw [String.data_append, ih]
    rfl

/-- Scanning consumes a `%s` token. -/
theorem countPSAux_ps_cons (b : List Char) :
    countPSAux ('%' :: 's' :: b) = countPSAux b + 1 := by
  simp [countPSAux]

/-- Scanning the joined placeholder tail counts exactly its placeholders, for
any continuation. -/
theorem countPSAux_phTail (n : Nat) (b : List Char) :
    countPSAux (phTail n ++ b) = n + countPSAux b := by
  induction n with
  | zero => simp [phTail]
  | succ m ih =>
    show countPSAux (',' :: '%' :: 's' :: (phTail m ++ b)) = m + 1 + countPSAux b
    rw [countPSAux_cons_ne ',' _ (by decide), countPSAux_ps_cons, ih]
    omega

/-- Scanning the placeholder list itself counts `n`, for any continuation. -/
theorem countPSAux_placeholders (n : Nat) (b : List Char) :
    countPSAux ((placeholders n).data ++ b) = n + countPSAux b := by
  cases n with
  | zero => simp [placeholders, String.intercalate]
  | succ m =>
    show countPSAux ((String.intercalate "," ("%s" :: List.replicate m "%s")).data ++ b) = _
    rw [intercalate_eq_sepJoin, String.data_append, sepJoin_replicate_data]
    show countPSAux ('%' :: 's' :: (phTail m ++ b)) = m + 1 + countPSAux b
    rw [countPSAux_ps_cons, countPSAux_phTail]
    omega

/-- Each generated fragment contains exactly `arity` placeholders, for any
continuation of the scan. -/
theorem countPSAux_toSql (c : Cond) (b : List Char) :
    countPSAux ((Cond.toSql c).data ++ b) = c.arity + countPSAux b := by
  cases c with
  | leagueIn n =>
    show countPSAux ((("\"League\" IN (" ++ placeholders n) ++ ")").data ++ b) = _
    simp only [String.data_append, List.append_assoc]
    rw [countPSAux_append_of_no_percent _ _ (by decide), countPSAux_placeholders,
      countPSAux_append_of_no_percent (")").data _ (by decide)]
    rfl
  | seasonIn n =>
    show countPSAux ((("\"Season\" IN (" ++ placeholders n) ++ ")").data ++ b) = _
    simp only [String.data_append, List.append_assoc]
    rw [countPSAux_append_of_no_percent _ _ (by decide), countPSAux_placeholders,
      countPSAux_append_of_no_percent (")").data _ (by decide)]
    rfl
  | teamIn n =>
    show countPSAux
      ((((("(\"HT\" IN (" ++ placeholders n) ++ ") OR \"AT\" IN (") ++ placeholders n)
        ++ "))").data ++ b) = _
    simp only [String.data_append, List.append_assoc]
    rw [countPSAux_append_of_no_percent _ _ (by decide), countPSAux_placeholders,
      countPSAux_append_of_no_percent (") OR \"AT\" IN (").data _ (by decide),
      countPSAux_placeholders,
      countPSAux_append_of_no_percent ("))").data _ (by decide)]
    show n + (n + countPSAux b) = 2 * n + countPSAux b
    omega
  | leagueEq =>
    have e : ("\"League\" = %s").data = ("\"League\" = ").data ++ ['%', 's'] := rfl
    show countPSAux (("\"League\" = %s").data ++ b) = 1 + countPSAux b
    rw [e, List.append_assoc, countPSAux_append_of_no_percent _ _ (by decide)]
    rw [show ['%', 's'] ++ b = '%' :: 's' :: b from rfl, countPSAux_ps_cons]
    omega
  | seasonEq =>
    have e : ("\"Season\" = %s").data = ("\"Season\" = ").data ++ ['%', 's'] := rfl
    show countPSAux (("\"Season\" = %s").data ++ b) = 1 + countPSAux b
    rw [e, List.append_assoc, countPSAux_append_of_no_percent _ _ (by decide)]
    rw [show ['%', 's'] ++ b = '%' :: 's' :: b from rfl, countPSAux_ps_cons]
    omega
  | teamEq =>
    have e : ("(\"HT\" = %s OR \"AT\" = %s)").data
        = ("(\"HT\" = ").data
          ++ (['%', 's'] ++ ((" OR \"AT\" = ").data ++ ['%', 's', ')'])) := rfl
    show countPSAux (("(\"HT\" = %s OR \"AT\" = %s)").data ++ b) = 2 + countPSAux b
    rw [e]
    simp only [List.append_assoc]
    rw [countPSAux_append_of_no_percent _ _ (by decide)]
    rw [show (['%', 's'] : List Char) ++ ((" OR \"AT\" = ").data ++ (['%', 's', ')'] ++ b))
        = '%' :: 's' :: ((" OR \"AT\" = ").data ++ (['%', 's', ')'] ++ b)) from rfl,
      countPSAux_ps_cons,
      countPSAux_append_of_no_percent (" OR \"AT\" = ").data _ (by decide)]
    rw [show (['%', 's', ')'] : List Char) ++ b = '%' :: 's' :: (')' :: b) from rfl,
      countPSAux_ps_cons, countPSAux_cons_ne ')' _ (by decide)]
    omega
  | dateFromGe =>
    have e : ("\"GameDate\" >= %s").data = ("\"GameDate\" >= ").data ++ ['%', 's'] := rfl
    show countPSAux (("\"GameDate\" >= %s").data ++ b) = 1 + countPSAux b
    rw [e, List.append_assoc, countPSAux_append_of_no_percent _ _ (by decide)]
    rw [show ['%', 's'] ++ b = '%' :: 's' :: b from rfl, countPSAux_ps_cons]
    omega
  | dateToLe =>
    have e : ("\"GameDate\" <= %s").data = ("\"GameDate\" <= ").data ++ ['%', 's'] := rfl
    show countPSAux (("\"GameDate\" <= %s").data ++ b) = 1 + countPSAux b
    rw [e, List.append_assoc, countPSAux_append_of_no_percent _ _ (by decide)]
    rw [show ['%', 's'] ++ b = '%' :: 's' :: b from rfl, countPSAux_ps_cons]
    omega

/-- Scanning an `" AND "`-joined tail of fragments counts the sum of their
arities, for any continuation. -/
theorem countPSAux_sepJoinConds (cs : List Cond) (b : List Char) :
    countPSAux ((sepJoin " AND " (cs.map Cond.toSql)).data ++ b)
      = (cs.map Cond.arity).sum + countPSAux b := by
  induction cs with
  | nil => simp [sepJoin]
  | cons c cs ih =>
    show countPSAux (((" AND " ++ Cond.toSql c) ++ sepJoin " AND " (cs.map Cond.toSql)).data
      ++ b) = _
    simp only [String.data_append, List.append_assoc]
    rw [countPSAux_append_of_no_percent _ _ (by decide), countPSAux_toSql, ih]
    simp only [List.map_cons, List.sum_cons]
    omega

/-- Scanning the full generated WHERE clause counts the sum of the arities of
its fragments, for any continuation. -/
theorem countPSAux_whereClause (f : Filters) (b : List Char) :
    countPSAux ((whereClause f).data ++ b)
      = (((buildWhere f).1.map Cond.arity).sum) + countPSAux b := by
  unfold whereClause
  cases hcs : (buildWhere f).1 with
  | nil => simp
  | cons c cs =>
    simp only [List.isEmpty_cons, Bool.false_eq_true, if_false, List.map_cons]
    rw [intercalate_eq_sepJoin]
    show countPSAux ((" AND " ++ (Cond.toSql c ++ sepJoin " AND " (cs.map Cond.toSql))).data
      ++ b) = _
    simp only [String.data_append, List.append_assoc]
    rw [countPSAux_append_of_no_percent _ _ (by decide), countPSAux_toSql,
      countPSAux_sepJoinConds]
    simp only [List.map_cons, List.sum_cons]
    omega

/-- The Filter Normalizer binds exactly as many parameters as its fragments
jointly consume. -/
theorem buildWhere_params_length (f : Filters) :
    (buildWhere f).2.length = ((buildWhere f).1.map Cond.arity).sum := by
  simp only [buildWhere, List.length_append, List.map_append, List.sum_append]
  rw [leagueConds_length, seasonConds_length, teamConds_length, dateFromConds_length,
    dateToConds_length]

/-- Placeholder/parameter agreement for `metrics_query`. -/
theorem countPlaceholders_metricsQuery (f : Filters) :
    countPlaceholders (metricsQuery f) = (buildWhere f).2.length := by
  unfold countPlaceholders metricsQuery
  rw [String.data_append, countPSAux_append_of_no_percent _ _ (by decide)]
  have h := countPSAux_whereClause f []
  rw [List.append_nil] at h
  rw [h, buildWhere_params_length]
  rfl

/-- Placeholder/parameter agreement for `teams_query`, whose WHERE clause text
appears twice and whose parameter tuple is `params + params`. -/
theorem countPlaceholders_teamsQuery (f : Filters) :
    countPlaceholders (teamsQuery f) = (teamsParams f).length := by
  unfold countPlaceholders teamsQuery
  simp only [String.data_append, List.append_assoc]
  rw [countPSAux_append_of_no_percent _ _ (by decide), countPSAux_whereClause,
    countPSAux_append_of_no_percent _ _ (by decide), countPSAux_whereClause]
  have h0 : countPSAux (" ) as unique_teams").data = 0 := by decide
  rw [h0]
  unfold teamsParams
  rw [List.length_append, buildWhere_params_length]
  omega

/-- Placeholder/parameter agreement for one `get_league_table` filter block
(the column name contains no percent sign). -/
theorem countPSAux_ltFragment (col : String) (h : '%' ∉ col.data)
    (v : Option (List String)) (b : List Char) :
    countPSAux ((ltFragment col v).1.data ++ b)
      = (ltFragment col v).2.length + countPSAux b := by
  cases v with
  | none => simp [ltFragment]
  | some xs =>
    by_cases he : xs.isEmpty
    · simp [ltFragment, he]
    · have e : ltFragment col (Option.some xs)
          = (" AND " ++ col ++ " IN (" ++ placeholders xs.length ++ ")", xs) := by
        simp [ltFragment, he]
      rw [e]
      simp only [String.data_append, List.append_assoc]
      rw [countPSAux_append_of_no_percent _ _ (by decide),
        countPSAux_append_of_no_percent _ _ h,
        countPSAux_append_of_no_percent _ _ (by decide),
        countPSAux_placeholders,
        countPSAux_append_of_no_percent (")").data _ (by decide)]

/-- Placeholder/parameter agreement for the full `get_league_table` query. -/
theorem countPlaceholders_leagueTableQuery (lf sf tf : Option (List String)) :
    countPlaceholders (leagueTableQuery lf sf tf) = (leagueTableParams lf sf tf).length := by
  unfold countPlaceholders leagueTableQuery leagueTableParams
  simp only [String.data_append, List.append_assoc]
  rw [countPSAux_append_of_no_percent _ _ (by decide),
    countPSAux_ltFragment "league" (by decide),
    countPSAux_ltFragment "season" (by decide),
    countPSAux_ltFragment "team" (by decide)]
  have h0 : countPSAux (" ORDER BY league, season, league_rank").data = 0 := by decide
  rw [h0]
  simp [List.length_append]

/-! ## Helper lemmas for the claims -/

/-- An accumulator bounds the running session maximum. -/
theorem le_foldl_max (l : List PredRow) (acc : Nat) :
    acc ≤ l.foldl (fun m x => max m x.sessionId) acc := by
  induction l generalizing acc with
  | nil => exact Nat.le_refl acc
  | cons r rs ih =>
    exact Nat.le_trans (Nat.le_max_left acc r.sessionId) (ih (max acc r.sessionId))

/-- Every member's session is bounded by the running maximum. -/
theorem mem_le_foldl_max (l : List PredRow) (acc : Nat) (x : PredRow) :
    x ∈ l → x.sessionId ≤ l.foldl (fun m x => max m x.sessionId) acc := by
  induction l generalizing acc with
  | nil => intro hx; cases hx
  | cons r rs ih =>
    intro hx
    rcases List.mem_cons.mp hx with he | hm
    · subst he
      exact Nat.le_trans (Nat.le_max_right acc x.sessionId) (le_foldl_max rs _)
    · exact ih _ hm

/-- The session maximum is `NULL` only on the empty table. -/
theorem maxSessionId_eq_none (tbl : List PredRow) :
    maxSessionId tbl = Option.none → tbl = [] := by
  cases tbl with
  | nil => intro _; rfl
  | cons r rs => intro h; simp [maxSessionId] at h

/-- The session maximum dominates every session in the table. -/
theorem maxSessionId_le (tbl : List PredRow) (m : Nat)
    (h : maxSessionId tbl = Option.some m) :
    ∀ r ∈ tbl, r.sessionId ≤ m := by
  cases tbl with
  | nil => intro r hr; cases hr
  | cons x xs =>
    intro r hr
    simp only [maxSessionId, Option.some.injEq] at h
    subst h
    rcases List.mem_cons.mp hr with he | hm
    · subst he; exact le_foldl_max xs r.sessionId
    · exact mem_le_foldl_max xs x.sessionId r hm

/-- An absent optional filter contributes no fragment and no parameter. -/
theorem epOptCond_none (c : EpCond) (mk : String → List EpParam) :
    epOptCond c mk Option.none = ([], []) := rfl

/-- Fragments produced by one optional-string block are the block's own
constructor. -/
theorem mem_epOptCond (c0 c : EpCond) (mk : String → List EpParam) (v : Option String)
    (h : c ∈ (epOptCond c0 mk v).1) : c = c0 := by
  cases v with
  | none => cases h
  | some s =>
    by_cases he : s.isEmpty
    · simp [epOptCond, he] at h
    · simp [epOptCond, he] at h
      exact h

/-- Writing a key makes it readable. -/
theorem lookupStats_upsert_self (d : List (String × TeamStats)) (k : String) (v : TeamStats) :
    lookupStats (upsert d k v) k = Option.some v := by
  induction d with
  | nil => simp [upsert, lookupStats, List.find?]
  | cons p ps ih =>
    by_cases hp : p.1 == k
    · simp [upsert, hp, lookupStats, List.find?]
    · have e : upsert (p :: ps) k v = p :: upsert ps k v := by simp [upsert, hp]
      rw [e]
      unfold lookupStats
      rw [List.find?_cons_of_neg _ (by simpa using hp)]
      exact ih

/-- Writing one key leaves other keys unchanged. -/
theorem lookupStats_upsert_ne (d : List (String × TeamStats)) (k : String) (v : TeamStats)
    (k' : String) (h : k' ≠ k) :
    lookupStats (upsert d k v) k' = lookupStats d k' := by
  induction d with
  | nil =>
    simp [upsert, lookupStats, List.find?, show ¬(k == k') by simpa using fun e => h e.symm]
  | cons p ps ih =>
    by_cases hp : p.1 == k
    · have hpk : p.1 = k := by simpa using hp
      simp only [upsert, hp, if_true]
      unfold lookupStats
      rw [List.find?_cons_of_neg _ (by simpa using fun e => h e.symm),
        List.find?_cons_of_neg _ (by rw [hpk]; simpa using fun e => h e.symm)]
    · have e : upsert (p :: ps) k v = p :: upsert ps k v := by simp [upsert, hp]
      rw [e]
      by_cases hpk : p.1 == k'
      · simp [lookupStats, List.find?, hpk]
      · unfold lookupStats
        rw [List.find?_cons_of_neg _ (by simpa using hpk),
          List.find?_cons_of_neg _ (by simpa using hpk)]
        exact ih

/-- Writing any key preserves the readability of a readable key. -/
theorem lookupStats_upsert_isSome (d : List (String × TeamStats)) (k : String) (v : TeamStats)
    (k' : String) (h : (lookupStats d k').isSome) :
    (lookupStats (upsert d k v) k').isSome := by
  by_cases he : k' = k
  · subst he; rw [lookupStats_upsert_self]; rfl
  · rw [lookupStats_upsert_ne d k v k' he]; exact h

/-- Folding over rows that never carry a given key leaves that key's lookup
unchanged. -/
theorem lookupStats_foldl_of_absent (rows : List TeamStatRow)
    (d0 : List (String × TeamStats)) (k : String)
    (h : ∀ r ∈ rows, r.team ≠ k) :
    lookupStats (rows.foldl (fun d r => upsert d r.team (rowToStats r)) d0) k
      = lookupStats d0 k := by
  induction rows generalizing d0 with
  | nil => rfl
  | cons r rs ih =>
    rw [List.foldl_cons, ih _ (fun x hx => h x (List.mem_cons_of_mem r hx)),
      lookupStats_upsert_ne _ _ _ _ (fun e => h r (List.mem_cons_self r rs) e.symm)]

/-- The ensured key is always readable afterwards. -/
theorem lookupStats_ensureTeam_self (d : List (String × TeamStats)) (t : String) :
    (lookupStats (ensureTeam d t) t).isSome := by
  cases hl : lookupStats d t with
  | none =>
    have e : ensureTeam d t = upsert d t naStats := by simp [ensureTeam, hl]
    rw [e, lookupStats_upsert_self]
    rfl
  | some v =>
    have e : ensureTeam d t = d := by simp [ensureTeam, hl]
    rw [e, hl]
    rfl

/-- Ensuring one key preserves the readability of any key. -/
theorem lookupStats_ensureTeam_isSome (d : List (String × TeamStats)) (t t' : String)
    (h : (lookupStats d t').isSome) :
    (lookupStats (ensureTeam d t) t').isSome := by
  cases hl : lookupStats d t with
  | none =>
    have e : ensureTeam d t = upsert d t naStats := by simp [ensureTeam, hl]
    rw [e]
    exact lookupStats_upsert_isSome d t naStats t' h
  | some v =>
    have e : ensureTeam d t = d := by simp [ensureTeam, hl]
    rw [e]
    exact h

/-- Ensuring an unreadable key fills it with the `'N/A'` entry. -/
theorem lookupStats_ensureTeam_of_none (d : List (String × TeamStats)) (t : String)
    (h : lookupStats d t = Option.none) :
    lookupStats (ensureTeam d t) t = Option.some naStats := by
  have e : ensureTeam d t = upsert d t naStats := by simp [ensureTeam, h]
  rw [e, lookupStats_upsert_self]

/-- Ensuring one key leaves other keys unchanged. -/
theorem lookupStats_ensureTeam_ne (d : List (String × TeamStats)) (t t' : String)
    (h : t' ≠ t) :
    lookupStats (ensureTeam d t) t' = lookupStats d t' := by
  cases hl : lookupStats d t with
  | none =>
    have e : ensureTeam d t = upsert d t naStats := by simp [ensureTeam, hl]
    rw [e, lookupStats_upsert_ne d t naStats t' h]
  | some v =>
    have e : ensureTeam d t = d := by simp [ensureTeam, hl]
    rw [e]

/-- Ensuring any key preserves an `'N/A'` entry. -/
theorem lookupStats_ensureTeam_preserves_na (d : List (String × TeamStats)) (t t' : String)
    (h : lookupStats d t' = Option.some naStats) :
    lookupStats (ensureTeam d t) t' = Option.some naStats := by
  by_cases he : t' = t
  · subst he
    have e : ensureTeam d t' = d := by simp [ensureTeam, h]
    rw [e]
    exact h
  · rw [lookupStats_ensureTeam_ne d t t' he]
    exact h

/-- Fragment arity as the placeholder count of its SQL text. -/
theorem countPlaceholders_toSql (c : Cond) :
    countPlaceholders (Cond.toSql c) = c.arity := by
  have h := countPSAux_toSql c []
  rw [List.append_nil] at h
  unfold countPlaceholders
  rw [h]
  rfl

/-- League block pieces: fragments paired with exactly their parameters, in
order. -/
theorem leagueConds_pieces (v : FilterVal) :
    ∃ pcs : List (Cond × List String),
      (leagueConds v).1 = pcs.map Prod.fst ∧ (leagueConds v).2 = (pcs.map Prod.snd).flatten
      ∧ ∀ p ∈ pcs, p.2.length = p.1.arity := by
  cases v with
  | none => exact ⟨[], by simp [leagueConds]⟩
  | str s =>
    by_cases h : s.isEmpty
    · exact ⟨[], by simp [leagueConds, h]⟩
    · exact ⟨[(Cond.leagueEq, [s])], by simp [leagueConds, h, Cond.arity]⟩
  | list l =>
    by_cases h : l.isEmpty
    · exact ⟨[], by simp [leagueConds, h]⟩
    · exact ⟨[(Cond.leagueIn l.length, l)], by simp [leagueConds, h, Cond.arity]⟩

/-- Season block pieces. -/
theorem seasonConds_pieces (v : FilterVal) :
    ∃ pcs : List (Cond × List String),
      (seasonConds v).1 = pcs.map Prod.fst ∧ (seasonConds v).2 = (pcs.map Prod.snd).flatten
      ∧ ∀ p ∈ pcs, p.2.length = p.1.arity := by
  cases v with
  | none => exact ⟨[], by simp [seasonConds]⟩
  | str s =>
    by_cases h : s.isEmpty
    · exact ⟨[], by simp [seasonConds, h]⟩
    · exact ⟨[(Cond.seasonEq, [s])], by simp [seasonConds, h, Cond.arity]⟩
  | list l =>
    by_cases h : l.isEmpty
    · exact ⟨[], by simp [seasonConds, h]⟩
    · exact ⟨[(Cond.seasonIn l.length, l)], by simp [seasonConds, h, Cond.arity]⟩

/-- Team block pieces (the fragment owns both copies of the team list). -/
theorem teamConds_pieces (v : FilterVal) :
    ∃ pcs : List (Cond × List String),
      (teamConds v).1 = pcs.map Prod.fst ∧ (teamConds v).2 = (pcs.map Prod.snd).flatten
      ∧ ∀ p ∈ pcs, p.2.length = p.1.arity := by
  cases v with
  | none => exact ⟨[], by simp [teamConds]⟩
  | str s =>
    by_cases h : s.isEmpty
    · exact ⟨[], by simp [teamConds, h]⟩
    · exact ⟨[(Cond.teamEq, [s, s])], by simp [teamConds, h, Cond.arity]⟩
  | list l =>
    by_cases h : l.isEmpty
    · exact ⟨[], by simp [teamConds, h]⟩
    · refine ⟨[(Cond.teamIn l.length, l ++ l)], by simp [teamConds, h, Cond.arity]; omega⟩

/-- Date lower-bound block pieces. -/
theorem dateFromConds_pieces (v : Option String) :
    ∃ pcs : List (Cond × List String),
      (dateFromConds v).1 = pcs.map Prod.fst ∧ (dateFromConds v).2 = (pcs.map Prod.snd).flatten
      ∧ ∀ p ∈ pcs, p.2.length = p.1.arity := by
  cases v with
  | none => exact ⟨[], by simp [dateFromConds]⟩
  | some d =>
    by_cases h : d.isEmpty
    · exact ⟨[], by simp [dateFromConds, h]⟩
    · exact ⟨[(Cond.dateFromGe, [d])], by simp [dateFromConds, h, Cond.arity]⟩

/-- Date upper-bound block pieces. -/
theorem dateToConds_pieces (v : Option String) :
    ∃ pcs : List (Cond × List String),
      (dateToConds v).1 = pcs.map Prod.fst ∧ (dateToConds v).2 = (pcs.map Prod.snd).flatten
      ∧ ∀ p ∈ pcs, p.2.length = p.1.arity := by
  cases v with
  | none => exact ⟨[], by simp [dateToConds]⟩
  | some d =>
    by_cases h : d.isEmpty
    · exact ⟨[], by simp [dateToConds, h]⟩
    · exact ⟨[(Cond.dateToLe, [d])], by simp [dateToConds, h, Cond.arity]⟩

/-- The Filter Normalizer output factors as an ordered list of
fragment/parameter pieces. -/
theorem buildWhere_pieces (f : Filters) :
    ∃ pcs : List (Cond × List String),
      (buildWhere f).1 = pcs.map Prod.fst ∧ (buildWhere f).2 = (pcs.map Prod.snd).flatten
      ∧ ∀ p ∈ pcs, p.2.length = p.1.arity := by
  obtain ⟨p1, h11, h12, h13⟩ := leagueConds_pieces f.league
  obtain ⟨p2, h21, h22, h23⟩ := seasonConds_pieces f.season
  obtain ⟨p3, h31, h32, h33⟩ := teamConds_pieces f.team
  obtain ⟨p4, h41, h42, h43⟩ := dateFromConds_pieces f.dateFrom
  obtain ⟨p5, h51, h52, h53⟩ := dateToConds_pieces f.dateTo
  refine ⟨p1 ++ p2 ++ p3 ++ p4 ++ p5, ?_, ?_, ?_⟩
  · simp [buildWhere, h11, h21, h31, h41, h51]
  · simp [buildWhere, h12, h22, h32, h42, h52]
  · intro p hp
    simp only [List.mem_append] at hp
    rcases hp with (((hp | hp) | hp) | hp) | hp
    · exact h13 p hp
    · exact h23 p hp
    · exact h33 p hp
    · exact h43 p hp
    · exact h53 p hp

/-- With zero valid rows, `get_league_statistics` yields no rows at all. -/
theorem get_league_statistics_empty (rd : List RawDataRow)
    (h : rd.filter validGoals = []) : get_league_statistics rd = [] := by
  simp [get_league_statistics, h]

/-- Every row `get_league_statistics` emits aggregates a nonempty group, so
the in-query division is never by zero. -/
theorem get_league_statistics_pos (rd : List RawDataRow) :
    ∀ row ∈ get_league_statistics rd, 0 < row.total_matches := by
  intro row hrow
  simp only [get_league_statistics, List.mem_map] at hrow
  obtain ⟨s, hs, hrow⟩ := hrow
  have hs2 : s ∈ (rd.filter validGoals).map (fun r => r.season) :=
    List.mem_dedup.mp (List.mem_mergeSort.mp hs)
  obtain ⟨r, hr, he⟩ := List.mem_map.mp hs2
  have hmem : r ∈ (rd.filter validGoals).filter (fun r => r.season == s) :=
    List.mem_filter.mpr ⟨hr, by simp [he]⟩
  have hpos : 0 < ((rd.filter validGoals).filter (fun r => r.season == s)).length :=
    List.length_pos.mpr (List.ne_nil_of_mem hmem)
  rw [← hrow]
  simpa [leagueStatOfGroup] using hpos

/-- When the latest session is found, the fragments of
`get_enhanced_predictions` are the session-equality fragment followed by the
fragments of the date-cleared, non-session build. -/
theorem epBuild_session (tbl : List PredRow) (f : EpFilters) (m : Nat)
    (h : maxSessionId tbl = Option.some m) :
    epBuild tbl f true
      = (EpCond.sessionEq
            :: (epBuild tbl { f with dateFrom := Option.none, dateTo := Option.none } false).1,
         EpParam.nat m
            :: (epBuild tbl { f with dateFrom := Option.none, dateTo := Option.none } false).2) := by
  simp [epBuild, h, epOptCond]

/-! ## Claims -/

/-- C1: when every filter field is `None` or an empty list (dates `None` or
the empty string), the Filter Normalizer produces zero predicate fragments and
zero bound parameters; and an empty multi-select in any single category
contributes nothing, exactly as if that filter were not provided. -/
theorem claim_C1_empty_filters_produce_nothing (f : Filters)
    (h : (f.league = FilterVal.none ∨ f.league = FilterVal.list []) ∧
         (f.season = FilterVal.none ∨ f.season = FilterVal.list []) ∧
         (f.team = FilterVal.none ∨ f.team = FilterVal.list []) ∧
         (f.dateFrom = Option.none ∨ f.dateFrom = Option.some "") ∧
         (f.dateTo = Option.none ∨ f.dateTo = Option.some "")) :
    buildWhere f = ([], [])
    ∧ ∀ g : Filters,
        buildWhere { g with league := FilterVal.list [] }
            = buildWhere { g with league := FilterVal.none }
        ∧ buildWhere { g with season := FilterVal.list [] }
            = buildWhere { g with season := FilterVal.none }
        ∧ buildWhere { g with team := FilterVal.list [] }
            = buildWhere { g with team := FilterVal.none } := by
  constructor
  · obtain ⟨h1, h2, h3, h4, h5⟩ := h
    have e1 : leagueConds f.league = ([], []) := by
      rcases h1 with h | h <;> rw [h] <;> decide
    have e2 : seasonConds f.season = ([], []) := by
      rcases h2 with h | h <;> rw [h] <;> decide
    have e3 : teamConds f.team = ([], []) := by
      rcases h3 with h | h <;> rw [h] <;> decide
    have e4 : dateFromConds f.dateFrom = ([], []) := by
      rcases h4 with h | h <;> rw [h] <;> decide
    have e5 : dateToConds f.dateTo = ([], []) := by
      rcases h5 with h | h <;> rw [h] <;> decide
    simp [buildWhere, e1, e2, e3, e4, e5]
  · intro g
    refine ⟨?_, ?_, ?_⟩ <;>
      simp [buildWhere, leagueConds, seasonConds, teamConds]

/-- Witness for C1 at a concrete all-empty filter set. -/
theorem claim_C1_witness :
    buildWhere
        ⟨FilterVal.list [], FilterVal.none, FilterVal.list [], Option.none, Option.some ""⟩
      = ([], []) :=
  (claim_C1_empty_filters_produce_nothing _
    ⟨Or.inr rfl, Or.inl rfl, Or.inr rfl, Or.inl rfl, Or.inr rfl⟩).1

/-- C2: a team filter list `[A, B]` yields the single disjunctive fragment
`("HT" IN (%s,%s) OR "AT" IN (%s,%s))` whose bound parameters are
`[A, B, A, B]` (each team exactly twice, once per side of the OR), and the
full generated WHERE clause evaluates as the AND of the other categories with
(home ∈ \x7bA, B\x7d OR away ∈ \x7bA, B\x7d). -/
theorem claim_C2_team_list_disjunction (A B : String) (f : Filters) (r : RawRow)
    (hne : A ≠ B) (ht : f.team = FilterVal.list [A, B]) :
    teamConds (FilterVal.list [A, B]) = ([Cond.teamIn 2], [A, B, A, B])
    ∧ Cond.toSql (Cond.teamIn 2) = "(\"HT\" IN (%s,%s) OR \"AT\" IN (%s,%s))"
    ∧ [A, B, A, B].count A = 2 ∧ [A, B, A, B].count B = 2
    ∧ evalConds (buildWhere f).1 (buildWhere f).2 r
        = (specLeagueOk f.league r && specSeasonOk f.season r
            && ((r.homeTeam == A || r.homeTeam == B) || (r.awayTeam == A || r.awayTeam == B))
            && specDateFromOk f.dateFrom r && specDateToOk f.dateTo r) := by
  refine ⟨by simp [teamConds], by decide, ?_, ?_, ?_⟩
  · simp [List.count_cons, beq_iff_eq, hne, Ne.symm hne]
  · simp [List.count_cons, beq_iff_eq, hne, Ne.symm hne]
  · rw [evalConds_buildWhere f r]
    unfold specMatches
    rw [ht]
    simp [specTeamOk, Bool.beq_eq_decide_eq]

/-- Witness for C2 at a concrete two-team filter. -/
theorem claim_C2_witness :
    (["Arsenal", "Chelsea", "Arsenal", "Chelsea"] : List String).count "Arsenal" = 2 :=
  (claim_C2_team_list_disjunction "Arsenal" "Chelsea"
    { team := FilterVal.list ["Arsenal", "Chelsea"] } (sampleRaw "H")
    (by decide) rfl).2.2.1

/-- C3: the query executor returns the empty table on every failure outcome
(no connection, or an exception such as a malformed query), and on success it
returns the fetched rows keyed by the fetched column names. -/
theorem claim_C3_executor_returns_empty_on_failure (o : QueryOutcome)
    (cols : List String) (rows : List (List String)) :
    execute_query QueryOutcome.connFailure = emptyTable
    ∧ (∀ msg, execute_query (QueryOutcome.execFailure msg) = emptyTable)
    ∧ (o = QueryOutcome.success cols rows → rows ≠ [] →
        execute_query o = { cols := cols, rows := rows })
    ∧ execute_query (QueryOutcome.success cols []) = emptyTable := by
  refine ⟨rfl, fun _ => rfl, ?_, by simp [execute_query, emptyTable]⟩
  intro ho hr
  subst ho
  simp [execute_query, hr]

/-- Witness for C3 at a successful one-row fetch. -/
theorem claim_C3_witness :
    execute_query (QueryOutcome.success ["col"] [["v"]])
      = { cols := ["col"], rows := [["v"]] } :=
  (claim_C3_executor_returns_empty_on_failure
    (QueryOutcome.success ["col"] [["v"]]) ["col"] [["v"]]).2.2.1 rfl (by decide)

/-- C4: with the current-session-only option, every returned row's session
identifier equals the maximum session identifier in the prediction table at
call time, and no row of an earlier session can appear. -/
theorem claim_C4_current_session_is_max (dbOk : Bool) (tbl : List PredRow) (f : EpFilters)
    (r : PredRow) (hr : r ∈ get_enhanced_predictions dbOk tbl f true) :
    maxSessionId tbl = Option.some r.sessionId
    ∧ ∀ x ∈ tbl, x.sessionId ≤ r.sessionId := by
  cases dbOk with
  | false => simp [get_enhanced_predictions] at hr
  | true =>
    simp only [get_enhanced_predictions, if_true] at hr
    cases hmax : maxSessionId tbl with
    | none =>
      have he : tbl = [] := maxSessionId_eq_none tbl hmax
      subst he
      simp at hr
    | some m =>
      rw [epBuild_session tbl f m hmax] at hr
      obtain ⟨hin, hpred⟩ := List.mem_filter.mp hr
      simp only [epEvalConds, EpCond.arity, EpCond.eval, List.take_succ_cons,
        List.take_zero, Bool.and_eq_true, beq_iff_eq] at hpred
      obtain ⟨hsid, -⟩ := hpred
      refine ⟨?_, ?_⟩
      · rw [hsid]
      · intro x hx
        rw [hsid]
        exact maxSessionId_le tbl m hmax x hx

/-- Witness for C4 at a three-session table. -/
theorem claim_C4_witness :
    maxSessionId examplePreds = Option.some (samplePred 3).sessionId
    ∧ ∀ x ∈ examplePreds, x.sessionId ≤ (samplePred 3).sessionId :=
  claim_C4_current_session_is_max true examplePreds {} (samplePred 3) (by decide)

/-- C9: once a latest session is found, the caller's date filters are
discarded before the query is built (the build is insensitive to them), the
generated fragments are the session-equality fragment followed by the date-free
build of the remaining filters (team, league, model still applied), and no
date fragment is generated. -/
theorem claim_C9_session_discards_date_filters (tbl : List PredRow) (f : EpFilters) (m : Nat)
    (h : maxSessionId tbl = Option.some m) :
    epBuild tbl f true
      = (EpCond.sessionEq
            :: (epBuild tbl { f with dateFrom := Option.none, dateTo := Option.none } false).1,
         EpParam.nat m
            :: (epBuild tbl { f with dateFrom := Option.none, dateTo := Option.none } false).2)
    ∧ (∀ df dt, epBuild tbl { f with dateFrom := df, dateTo := dt } true = epBuild tbl f true)
    ∧ ∀ c ∈ (epBuild tbl f true).1, c ≠ EpCond.dateFromGe ∧ c ≠ EpCond.dateToLe := by
  refine ⟨epBuild_session tbl f m h, ?_, ?_⟩
  · intro df dt
    simp [epBuild, h]
  · intro c hc
    rw [epBuild_session tbl f m h] at hc
    rcases List.mem_cons.mp hc with he | hm2
    · subst he; exact ⟨by decide, by decide⟩
    · have hb : (epBuild tbl { f with dateFrom := Option.none, dateTo := Option.none } false).1
          = (epOptCond EpCond.teamOr (fun s => [EpParam.str s, EpParam.str s]) f.team).1
            ++ ((epOptCond EpCond.leagueEq (fun s => [EpParam.str s]) f.league).1
              ++ (epOptCond EpCond.modelEq (fun s => [EpParam.str s]) f.model).1) := by
        simp [epBuild, epOptCond_none]
      rw [hb] at hm2
      have : c ∈ (epOptCond EpCond.teamOr (fun s => [EpParam.str s, EpParam.str s]) f.team).1
          ∨ c ∈ (epOptCond EpCond.leagueEq (fun s => [EpParam.str s]) f.league).1
          ∨ c ∈ (epOptCond EpCond.modelEq (fun s => [EpParam.str s]) f.model).1 := by
        rcases List.mem_append.mp hm2 with hx | hx
        · exact Or.inl hx
        · rcases List.mem_append.mp hx with hy | hy
          · exact Or.inr (Or.inl hy)
          · exact Or.inr (Or.inr hy)
      rcases this with hx | hx | hx
      · rw [mem_epOptCond _ _ _ _ hx]; exact ⟨by decide, by decide⟩
      · rw [mem_epOptCond _ _ _ _ hx]; exact ⟨by decide, by decide⟩
      · rw [mem_epOptCond _ _ _ _ hx]; exact ⟨by decide, by decide⟩

/-- Witness for C9 at a three-session table with a caller-supplied date
range. -/
theorem claim_C9_witness :
    epBuild examplePreds
        { dateFrom := Option.some "2024-01-01", dateTo := Option.some "2024-02-01" } true
      = epBuild examplePreds {} true :=
  (claim_C9_session_discards_date_filters examplePreds {} 3 (by decide)).2.1
    (Option.some "2024-01-01") (Option.some "2024-02-01")

/-- C5: with zero qualifying rows, every percentage field of
`get_raw_data_analytics` is `0` (on the failure path as well);
`get_league_statistics` emits no row at all with zero valid rows, and every
row it ever emits aggregates a nonempty group, so its in-query percentage
division is never by zero. -/
theorem claim_C5_zero_rows_give_zero_percentages (dbOk : Bool) (tbl : List RawRow)
    (f : Filters) (rd rd2 : List RawDataRow)
    (h1 : tbl.filter (qualifies f) = []) (h2 : rd.filter validGoals = []) :
    (get_raw_data_analytics dbOk tbl f).home_percentage = 0
    ∧ (get_raw_data_analytics dbOk tbl f).away_percentage = 0
    ∧ (get_raw_data_analytics dbOk tbl f).draw_percentage = 0
    ∧ get_league_statistics rd = []
    ∧ ∀ row ∈ get_league_statistics rd2, 0 < row.total_matches := by
  refine ⟨?_, ?_, ?_, get_league_statistics_empty rd h2, get_league_statistics_pos rd2⟩ <;>
    cases dbOk with
    | false => simp [get_raw_data_analytics, analyticsFallback]
    | true => simp [get_raw_data_analytics, analyticsAggregate, h1, roundTo_zero]

/-- Witness for C5 at the empty tables. -/
theorem claim_C5_witness :
    (get_raw_data_analytics true [] {}).home_percentage = 0 :=
  (claim_C5_zero_rows_give_zero_percentages true [] {} [] [] rfl rfl).1

/-- C6: outcome percentages are `count(subset) / count(total) * 100` rounded
to one decimal; in particular ten matches with six home wins, two draws and
two away wins yield 60.0 / 20.0 / 20.0. -/
theorem claim_C6_percentages_are_rounded_ratios (tbl : List RawRow) (f : Filters)
    (h : 0 < (tbl.filter (qualifies f)).length) :
    ((get_raw_data_analytics true tbl f).home_percentage
        = roundTo 1 ((((tbl.filter (qualifies f)).filter (fun r => r.result == "H")).length : ℚ)
            / (((tbl.filter (qualifies f)).length : Nat) : ℚ) * 100)
      ∧ (get_raw_data_analytics true tbl f).away_percentage
        = roundTo 1 ((((tbl.filter (qualifies f)).filter (fun r => r.result == "A")).length : ℚ)
            / (((tbl.filter (qualifies f)).length : Nat) : ℚ) * 100)
      ∧ (get_raw_data_analytics true tbl f).draw_percentage
        = roundTo 1 ((((tbl.filter (qualifies f)).filter (fun r => r.result == "D")).length : ℚ)
            / (((tbl.filter (qualifies f)).length : Nat) : ℚ) * 100))
    ∧ (get_raw_data_analytics true exampleMatches {}).home_percentage = 60
    ∧ (get_raw_data_analytics true exampleMatches {}).draw_percentage = 20
    ∧ (get_raw_data_analytics true exampleMatches {}).away_percentage = 20 := by
  have hH : (analyticsAggregate exampleMatches {}).home_wins = 6 := by decide
  have hD : (analyticsAggregate exampleMatches {}).draws = 2 := by decide
  have hA : (analyticsAggregate exampleMatches {}).away_wins = 2 := by decide
  have hT : (analyticsAggregate exampleMatches {}).total_games = 10 := by decide
  refine ⟨⟨?_, ?_, ?_⟩, ?_, ?_, ?_⟩
  · simp [get_raw_data_analytics, analyticsAggregate, h]
  · simp [get_raw_data_analytics, analyticsAggregate, h]
  · simp [get_raw_data_analytics, analyticsAggregate, h]
  · simp only [get_raw_data_analytics, if_true, hH, hT]
    rw [show (if 10 > 0 then ((6 : Nat) : ℚ) / ((10 : Nat) : ℚ) * 100 else 0)
        = ((60 : ℤ) : ℚ) by norm_num]
    exact roundTo_intCast 1 60
  · simp only [get_raw_data_analytics, if_true, hD, hT]
    rw [show (if 10 > 0 then ((2 : Nat) : ℚ) / ((10 : Nat) : ℚ) * 100 else 0)
        = ((20 : ℤ) : ℚ) by norm_num]
    exact roundTo_intCast 1 20
  · simp only [get_raw_data_analytics, if_true, hA, hT]
    rw [show (if 10 > 0 then ((2 : Nat) : ℚ) / ((10 : Nat) : ℚ) * 100 else 0)
        = ((20 : ℤ) : ℚ) by norm_num]
    exact roundTo_intCast 1 20

/-- Witness for C6 at the ten-match sample. -/
theorem claim_C6_witness :
    (get_raw_data_analytics true exampleMatches {}).home_percentage = 60 :=
  (claim_C6_percentages_are_rounded_ratios exampleMatches {} (by decide)).2.1

/-- C7: with zero qualifying rows every average field (goals, shots, and the
six odds averages, whose SQL aggregates are then NULL) comes back as `0`, in
both `get_raw_data_analytics` and `get_goals_shots_filtered_data`. -/
theorem claim_C7_null_averages_become_zero (dbOk : Bool) (tbl : List RawRow) (f : Filters)
    (h : tbl.filter (qualifies f) = []) :
    (get_raw_data_analytics dbOk tbl f).avg_goals = 0
    ∧ (get_raw_data_analytics dbOk tbl f).avg_shots = 0
    ∧ (get_raw_data_analytics dbOk tbl f).avg_winning_home_odds = 0
    ∧ (get_raw_data_analytics dbOk tbl f).avg_winning_draw_odds = 0
    ∧ (get_raw_data_analytics dbOk tbl f).avg_winning_away_odds = 0
    ∧ (get_raw_data_analytics dbOk tbl f).avg_overall_home_odds = 0
    ∧ (get_raw_data_analytics dbOk tbl f).avg_overall_draw_odds = 0
    ∧ (get_raw_data_analytics dbOk tbl f).avg_overall_away_odds = 0
    ∧ (get_goals_shots_filtered_data dbOk tbl f).avg_goals = 0
    ∧ (get_goals_shots_filtered_data dbOk tbl f).avg_shots = 0 := by
  cases dbOk with
  | false =>
    refine ⟨?_, ?_, ?_, ?_, ?_, ?_, ?_, ?_, ?_, ?_⟩ <;>
      simp [get_raw_data_analytics, get_goals_shots_filtered_data, analyticsFallback]
  | true =>
    refine ⟨?_, ?_, ?_, ?_, ?_, ?_, ?_, ?_, ?_, ?_⟩ <;>
      simp [get_raw_data_analytics, get_goals_shots_filtered_data, analyticsAggregate, h,
        avgOpt, avgOfOpts, roundTo_zero]

/-- Witness for C7 at the empty table. -/
theorem claim_C7_witness :
    (get_raw_data_analytics true [] {}).avg_goals = 0 :=
  (claim_C7_null_averages_become_zero true [] {} rfl).1

/-- C8: for every filter combination, the number of `%s` placeholders in the
query text finally submitted equals the length of the submitted parameter
list — including `teams_query`, where the WHERE text appears twice and the
parameter list is duplicated — and the normalizer's output factors into
ordered fragment/parameter pieces in which each fragment carries exactly as
many parameters as its own placeholders, in order. -/
theorem claim_C8_placeholders_match_parameters (f : Filters) (lf sf tf : Option (List String)) :
    countPlaceholders (metricsQuery f) = (buildWhere f).2.length
    ∧ countPlaceholders (teamsQuery f) = (teamsParams f).length
    ∧ countPlaceholders (leagueTableQuery lf sf tf) = (leagueTableParams lf sf tf).length
    ∧ ∃ pieces : List (Cond × List String),
        (buildWhere f).1 = pieces.map Prod.fst
        ∧ (buildWhere f).2 = (pieces.map Prod.snd).flatten
        ∧ ∀ p ∈ pieces, p.2.length = countPlaceholders (Cond.toSql p.1) := by
  refine ⟨countPlaceholders_metricsQuery f, countPlaceholders_teamsQuery f,
    countPlaceholders_leagueTableQuery lf sf tf, ?_⟩
  obtain ⟨pcs, e1, e2, e3⟩ := buildWhere_pieces f
  refine ⟨pcs, e1, e2, fun p hp => ?_⟩
  rw [countPlaceholders_toSql]
  exact e3 p hp

/-- C10: the team-statistics lookup always returns an entry for both requested
teams (each entry structurally holds all five fields), with the all-`'N/A'`
entry for a team absent from the result set, including on zero rows and on
query failure. -/
theorem claim_C10_both_teams_always_present (dbOk : Bool) (tbl : List TeamStatRow)
    (home away : String) (season : Option String) :
    (lookupStats (get_team_statistics dbOk tbl home away season) home).isSome
    ∧ (lookupStats (get_team_statistics dbOk tbl home away season) away).isSome
    ∧ (dbOk = true →
        (∀ r ∈ tbl.filter (fun r => (r.team == home || r.team == away)
            && r.season == resolveSeason dbOk tbl season), r.team ≠ home) →
        lookupStats (get_team_statistics dbOk tbl home away season) home
          = Option.some naStats)
    ∧ (dbOk = true →
        (∀ r ∈ tbl.filter (fun r => (r.team == home || r.team == away)
            && r.season == resolveSeason dbOk tbl season), r.team ≠ away) →
        lookupStats (get_team_statistics dbOk tbl home away season) away
          = Option.some naStats)
    ∧ (dbOk = false →
        lookupStats (get_team_statistics dbOk tbl home away season) home
            = Option.some naStats
        ∧ lookupStats (get_team_statistics dbOk tbl home away season) away
            = Option.some naStats) := by
  cases dbOk with
  | false =>
    have hh : lookupStats (get_team_statistics false tbl home away season) home
        = Option.some naStats := by
      simp [get_team_statistics, lookupStats, List.find?]
    have ha : lookupStats (get_team_statistics false tbl home away season) away
        = Option.some naStats := by
      by_cases he : home = away
      · simp [get_team_statistics, lookupStats, List.find?, he]
      · have hb : (home == away) = false := by simpa using he
        simp [get_team_statistics, lookupStats, List.find?, hb]
    refine ⟨?_, ?_, ?_, ?_, ?_⟩
    · rw [hh]; rfl
    · rw [ha]; rfl
    · intro hcon; exact absurd hcon (by decide)
    · intro hcon; exact absurd hcon (by decide)
    · intro _; exact ⟨hh, ha⟩
  | true =>
    have hdef : get_team_statistics true tbl home away season
        = ensureTeam (ensureTeam
            ((tbl.filter (fun r => (r.team == home || r.team == away)
                && r.season == resolveSeason true tbl season)).foldl
              (fun d r => upsert d r.team (rowToStats r)) []) home) away := rfl
    rw [hdef]
    refine ⟨?_, ?_, ?_, ?_, fun hcon => absurd hcon (by decide)⟩
    · exact lookupStats_ensureTeam_isSome _ away home (lookupStats_ensureTeam_self _ home)
    · exact lookupStats_ensureTeam_self _ away
    · intro _ habs
      have h0 : lookupStats ((tbl.filter (fun r => (r.team == home || r.team == away)
            && r.season == resolveSeason true tbl season)).foldl
              (fun d r => upsert d r.team (rowToStats r)) []) home = Option.none := by
        rw [lookupStats_foldl_of_absent _ _ _ habs]
        rfl
      exact lookupStats_ensureTeam_preserves_na _ away home
        (lookupStats_ensureTeam_of_none _ home h0)
    · intro _ habs
      have h0 : lookupStats ((tbl.filter (fun r => (r.team == home || r.team == away)
            && r.season == resolveSeason true tbl season)).foldl
              (fun d r => upsert d r.team (rowToStats r)) []) away = Option.none := by
        rw [lookupStats_foldl_of_absent _ _ _ habs]
        rfl
      by_cases he : away = home
      · rw [he] at h0 ⊢
        exact lookupStats_ensureTeam_preserves_na _ home home
          (lookupStats_ensureTeam_of_none _ home h0)
      · have h1 : lookupStats (ensureTeam ((tbl.filter (fun r =>
            (r.team == home || r.team == away)
              && r.season == resolveSeason true tbl season)).foldl
              (fun d r => upsert d r.team (rowToStats r)) []) home) away = Option.none := by
          rw [lookupStats_ensureTeam_ne _ home away he]
          exact h0
        exact lookupStats_ensureTeam_of_none _ away h1

/-- Witness for C10 on an empty statistics table. -/
theorem claim_C10_witness :
    lookupStats (get_team_statistics true [] "Arsenal" "Chelsea" Option.none) "Arsenal"
      = Option.some naStats :=
  (claim_C10_both_teams_always_present true [] "Arsenal" "Chelsea" Option.none).2.2.1 rfl
    (by simp)

end PokoPred
